import Mathlib

/-!
# Verification of the SASS playground core (shallow embedding)

This file embeds the core of the repository (a CUDA kernel round-trip and
benchmarking tool) into Lean 4 and proves properties of the embedded code.

Embedding conventions:
* Python floats are modelled as rationals (`ℚ`).  Every arithmetic
  expression a claim mentions (speedup ratios, `(s-1)*100`, absolute
  deviations, the `1e-6` tolerance) is exact in `ℚ`; the idealisation
  `1e-6 = 1/1000000` and total `ℚ` division (`x / 0 = 0`, where numpy
  floats would give `inf`) lie outside the inputs any claim touches.
* Python exceptions are modelled with `Except`: a raised exception that
  propagates out of a function is `Except.error`; a function that returns
  normally yields `Except.ok`.
* Side effects on the GPU device (allocations, copies, launches, frees)
  are recorded as an event trace (`List Ev`) returned alongside the result,
  so resource-release and ordering properties are statements about traces.
* The outcome of each fallible external operation (subprocess exit,
  device operation) is an explicit parameter, mirroring the fact that the
  Python code branches on whatever the outside world returns.
-/

/-- Kinds of Python exception the embedded code can raise or propagate.
`runtimeError` is what `utils.run_command` raises for a failing tool
(the ToolFailure of the spec), `fileNotFoundError` is the propagated
missing-file exception (the ArtifactNotFound / ToolUnavailable of the
spec), `valueError` and `notImplementedError` come from `Compiler.compile`,
and `keyError` models a missing dictionary key. -/
inductive PyError where
  | runtimeError (msg : String)
  | fileNotFoundError (msg : String)
  | valueError (msg : String)
  | notImplementedError (msg : String)
  | keyError (key : String)
  deriving Repr, DecidableEq

/-- True exactly for the `FileNotFoundError` kind (spec: ArtifactNotFound /
ToolUnavailable). -/
def PyError.isFileNotFound : PyError → Bool
  | PyError.fileNotFoundError _ => true
  | _ => false

/-- What `subprocess.run` did for one invocation: the process completed
with an exit code and captured output, or the binary itself was missing
(Python raises `FileNotFoundError` before any process runs). -/
inductive SubprocessOutcome where
  | completed (returncode : Int) (stdout : String) (stderr : String)
  | fileNotFound (msg : String)
  deriving Repr, DecidableEq

/-- Embeds `utils.run_command`.  `subprocess.run(..., check=True)` raises
`CalledProcessError` on a non-zero exit; the `except` clause re-raises it
as `RuntimeError` with the f-string message built from the return code and
stderr.  A missing binary (`FileNotFoundError`) is not caught and
propagates unchanged.  The command list is received but, on failure, only
the exit code and stderr reach the message. -/
def run_command (cmd : List String) (outcome : SubprocessOutcome) :
    Except PyError (String × String) :=
  match outcome with
  | SubprocessOutcome.completed rc out err =>
      if rc = 0 then Except.ok (out, err)
      else Except.error (PyError.runtimeError
        ("Command failed with exit code " ++ toString rc ++ ":\n" ++ err))
  | SubprocessOutcome.fileNotFound m => Except.error (PyError.fileNotFoundError m)

/-- Embeds `Compiler._compile_cuda`: two `nvcc` invocations (PTX then
CUBIN); a failure of either propagates; on success the two output paths
are returned. -/
def compile_cuda (stem outDir : String)
    (nvccPtx nvccCubin : SubprocessOutcome) : Except PyError (String × String) :=
  match run_command ["nvcc", "-ptx"] nvccPtx with
  | Except.error e => Except.error e
  | Except.ok _ =>
      match run_command ["nvcc", "-cubin"] nvccCubin with
      | Except.error e => Except.error e
      | Except.ok _ => Except.ok (outDir ++ "/" ++ stem ++ ".ptx", outDir ++ "/" ++ stem ++ ".cubin")

/-- Embeds `Compiler.compile`: dispatch on the input suffix.  `.cu` goes to
nvcc; `.py` reaches `_compile_triton`, whose body unconditionally raises
`NotImplementedError`; any other suffix raises `ValueError` with a message
naming the suffix. -/
def Compiler.compile (stem suffix outDir : String)
    (nvccPtx nvccCubin : SubprocessOutcome) : Except PyError (String × String) :=
  if suffix = ".cu" then compile_cuda stem outDir nvccPtx nvccCubin
  else if suffix = ".py" then
    Except.error (PyError.notImplementedError "Triton compilation not yet implemented")
  else
    Except.error (PyError.valueError ("Unsupported file type: " ++ suffix))

/-- Embeds `Disassembler.disassemble` for input `<stem>.cubin`.  The
function performs no existence check of its own: it runs `nvdisasm`
(whose outcome is the parameter `nvdisasmOut`; on a missing input file the
real tool exits non-zero), then writes the `.sass` text, then copies the
original cubin with `shutil.copy2` (which raises `FileNotFoundError` when
the source is missing), then runs `cuasm --bin2asm` which writes the
`.cuasm` file.  The second component of the result lists the output files
written to disk, in order, on every path (`ensure_dir` only creates the
output directory, never a file). -/
def Disassembler.disassemble (stem outDir : String) (inputExists : Bool)
    (nvdisasmOut cuasmOut : SubprocessOutcome) :
    Except PyError String × List String :=
  match run_command ["nvdisasm", "-g", "-c"] nvdisasmOut with
  | Except.error e => (Except.error e, [])
  | Except.ok _ =>
      let sassFile := outDir ++ "/" ++ stem ++ ".sass"
      if inputExists then
        match run_command ["cuasm", "--bin2asm"] cuasmOut with
        | Except.error e => (Except.error e, [sassFile, outDir ++ "/" ++ stem ++ ".original.cubin"])
        | Except.ok _ =>
            (Except.ok (outDir ++ "/" ++ stem ++ ".cuasm"),
             [sassFile, outDir ++ "/" ++ stem ++ ".original.cubin", outDir ++ "/" ++ stem ++ ".cuasm"])
      else
        (Except.error (PyError.fileNotFoundError
          ("No such file or directory: " ++ stem ++ ".cubin")), [sassFile])

/-- Embeds `Assembler.assemble` for input `<stem>.cuasm`.  Unlike decode,
encode explicitly checks existence of its input and raises
`FileNotFoundError` with the documented message before invoking any tool;
on success the external `cuasm --asm2bin` call writes the new cubin. -/
def Assembler.assemble (stem outDir : String) (inputExists : Bool)
    (cuasmOut : SubprocessOutcome) : Except PyError String × List String :=
  if inputExists then
    match run_command ["cuasm", "--asm2bin"] cuasmOut with
    | Except.error e => (Except.error e, [])
    | Except.ok _ =>
        (Except.ok (outDir ++ "/" ++ stem ++ "_new.cubin"),
         [outDir ++ "/" ++ stem ++ "_new.cubin"])
  else
    (Except.error (PyError.fileNotFoundError
      ("Could not find " ++ stem ++ ".cuasm. Please run disassemble first.")), [])

/-- Timing statistics stored in the result dictionary (`mean_ms`, `min_ms`,
`max_ms`, each the corresponding numpy reduction of the per-iteration times
scaled to milliseconds).  `std_ms`, a real-valued square root that no claim
refers to, is not modelled: it is not rational-valued. -/
structure Timing where
  mean_ms : ℚ
  min_ms : ℚ
  max_ms : ℚ
  deriving Repr, DecidableEq

/-- Correctness statistics stored in the result dictionary. -/
structure Correctness where
  max_error : ℚ
  passed : Bool
  deriving Repr, DecidableEq

/-- One human-inspectable sample row. -/
structure Sample where
  idx : Nat
  a : ℚ
  b : ℚ
  out : ℚ
  expected : ℚ
  error : ℚ
  deriving Repr, DecidableEq

/-- The result dictionary built by `KernelRunner.run`.  Keys that are
present only on the success path (`samples`, `test_size`) and the
sub-dictionaries that start out empty (`timing`, `correctness`) are
`Option`s, `none` standing for absent or `{}`. -/
structure RunPayload where
  kernel : String
  kernel_name : String
  success : Bool
  error : Option String
  timing : Option Timing
  correctness : Option Correctness
  samples : Option (List Sample)
  test_size : Option Nat
  deriving Repr, DecidableEq

/-- The dictionary returned by `KernelRunner._compare_results`: either the
`{"error": ...}` payload, or the statistics payload with its five keys. -/
inductive ComparisonPayload where
  | errorPayload (msg : String)
  | stats (speedup speedup_percent original_ms modified_ms : ℚ) (both_correct : Bool)
  deriving Repr, DecidableEq

/-- The `speedup` key of a comparison payload, when present. -/
def ComparisonPayload.speedupValue : ComparisonPayload → Option ℚ
  | ComparisonPayload.errorPayload _ => none
  | ComparisonPayload.stats s _ _ _ _ => some s

/-- Embeds `KernelRunner._compare_results`.  `new_results` is the candidate
(the kernel just run), `old_results` the baseline (`compare_with`).  When
either run failed the function returns the error payload before touching
any timing key; otherwise it reads `timing.mean_ms` and
`correctness.passed` of both (a missing key would raise `KeyError`,
modelled as `Except.error`) and returns the statistics. -/
def compare_results (newR oldR : RunPayload) : Except PyError ComparisonPayload :=
  if !(newR.success && oldR.success) then
    Except.ok (ComparisonPayload.errorPayload "One or both kernels failed")
  else
    match newR.timing, oldR.timing with
    | some tNew, some tOld =>
        match newR.correctness, oldR.correctness with
        | some cn, some co =>
            let speedup := tOld.mean_ms / tNew.mean_ms
            Except.ok (ComparisonPayload.stats speedup ((speedup - 1) * 100)
              tOld.mean_ms tNew.mean_ms (cn.passed && co.passed))
        | _, _ => Except.error (PyError.keyError "correctness")
    | _, _ => Except.error (PyError.keyError "timing")

/-- State of the class-level context bookkeeping of `KernelRunner`:
`threadCtx w` is the `context` attribute of worker `w`'s thread-local
storage (context handles are modelled as naturals), `contextsToCleanup`
is the class list `_contexts_to_cleanup`, and `nextHandle` generates the
fresh handle `device.make_context()` would return.  Making a context
current (`push`) affects only the driver's current-context stack, which
is outside this state. -/
structure CtxState where
  threadCtx : Nat → Option Nat
  contextsToCleanup : List Nat
  nextHandle : Nat

/-- Embeds `KernelRunner._ensure_cuda_context` run by worker `w`: if the
worker's thread-local storage has no `context` attribute, create a fresh
context, store it there and append it to the cleanup list; otherwise only
push the existing context (registry unchanged). -/
def ensure_cuda_context (w : Nat) (s : CtxState) : CtxState :=
  match s.threadCtx w with
  | none =>
      { threadCtx := fun w2 => if w2 = w then some s.nextHandle else s.threadCtx w2,
        contextsToCleanup := s.contextsToCleanup ++ [s.nextHandle],
        nextHandle := s.nextHandle + 1 }
  | some _ => s

/-- Embeds the loop body of `KernelRunner._cleanup_all_contexts`: each
registered context is popped inside `try ... except: pass`, so the loop
visits every entry whatever the pop outcomes are.  The result is the log
of pop attempts with their outcomes (`popOk c` tells whether popping
context `c` succeeds). -/
def pop_loop (popOk : Nat → Bool) : List Nat → List (Nat × Bool)
  | [] => []
  | c :: rest => (c, popOk c) :: pop_loop popOk rest

/-- Embeds `KernelRunner._cleanup_all_contexts`: pop every context in the
cleanup list (failures swallowed, so this is a total function that never
propagates an error), then clear the list.  Returns the new state together
with the pop log. -/
def cleanup_all_contexts (popOk : Nat → Bool) (s : CtxState) :
    CtxState × List (Nat × Bool) :=
  ({ s with contextsToCleanup := [] }, pop_loop popOk s.contextsToCleanup)

/-- Device-side events emitted by `KernelRunner.run`, in program order:
buffer allocations, host-to-device copies of the two inputs, the warmup
launch, the timed launches, synchronization barriers, the device-to-host
copy of the output, and the frees in the `finally` block. -/
inductive Ev where
  | allocA
  | allocB
  | allocC
  | htodA
  | htodB
  | launchWarmup
  | launchTimed (i : Nat)
  | sync
  | dtoh
  | freeA
  | freeB
  | freeC
  deriving Repr, DecidableEq

/-- Environment of one `KernelRunner.run` invocation: the problem size and
the host input arrays (`np.random.rand` draws, left abstract), the device
output array contents after execution (`devOut`, abstract because the
kernel binary under test is arbitrary), the success or failure of each
fallible device operation, and the wall-clock time measured for each timed
iteration (launch plus synchronize, as `perf_counter` differences).
Context acquisition and the `module.get_function` lookup, which precede
everything modelled here and whose failures also propagate, are omitted. -/
structure Env where
  n : Nat
  a : Nat → ℚ
  b : Nat → ℚ
  devOut : Nat → ℚ
  loadOk : Bool
  htodAOk : Bool
  htodBOk : Bool
  warmupOk : Bool
  iterOk : Nat → Bool
  dtohOk : Bool
  iterTime : Nat → ℚ

/-- The fixed correctness tolerance `1e-6`. -/
def tolerance : ℚ := 1 / 1000000

/-- The reference computation `expected = a + b`, element-wise. -/
def expectedAt (env : Env) (i : Nat) : ℚ := env.a i + env.b i

/-- The array `np.abs(c - expected)` as a list over the problem size. -/
def deviations (env : Env) : List ℚ :=
  (List.range env.n).map (fun i => |env.devOut i - expectedAt env i|)

/-- `np.max(np.abs(c - expected))`: every entry is an absolute value, so
folding `max` from `0` computes the numpy maximum for a nonempty array
(the empty case raises in numpy and is an error path of `run`). -/
def maxAbsError (env : Env) : ℚ := (deviations env).foldl max 0

/-- The sample rows built on the success path: one row per index below
`min(5, n)`, each holding both inputs, the device output, the reference
value and the absolute error. -/
def samplesOf (env : Env) : List Sample :=
  (List.range (min 5 env.n)).map (fun i =>
    { idx := i, a := env.a i, b := env.b i, out := env.devOut i,
      expected := expectedAt env i, error := |env.devOut i - expectedAt env i| })

/-- `np.mean` of a list of rationals. -/
def meanQ (l : List ℚ) : ℚ := l.sum / (l.length : ℚ)

/-- `np.min` of a nonempty list (`0` as the irrelevant empty default). -/
def listMinQ : List ℚ → ℚ
  | [] => 0
  | x :: xs => xs.foldl min x

/-- `np.max` of a nonempty list (`0` as the irrelevant empty default). -/
def listMaxQ : List ℚ → ℚ
  | [] => 0
  | x :: xs => xs.foldl max x

/-- The `timing` sub-dictionary computed from the recorded per-iteration
times (seconds scaled to milliseconds). -/
def timingOf (ts : List ℚ) : Timing :=
  { mean_ms := meanQ ts * 1000, min_ms := listMinQ ts * 1000,
    max_ms := listMaxQ ts * 1000 }

/-- Embeds the timed benchmark loop of `KernelRunner.run`, iterations
`start, start+1, ...` while `count` remains: each iteration launches the
kernel and synchronizes (both folded into `iterOk`; a raise ends the loop
with neither an event nor a recorded time for that iteration) and appends
the measured elapsed time.  Returns the recorded times (or the propagated
exception) together with the emitted events. -/
def timedIters (env : Env) : Nat → Nat → Except String (List ℚ) × List Ev
  | _, 0 => (Except.ok [], [])
  | start, count + 1 =>
      if env.iterOk start then
        match timedIters env (start + 1) count with
        | (Except.ok ts, evs) =>
            (Except.ok (env.iterTime start :: ts), Ev.launchTimed start :: Ev.sync :: evs)
        | (Except.error e, evs) =>
            (Except.error e, Ev.launchTimed start :: Ev.sync :: evs)
      else (Except.error "kernel launch failed", [])

/-- Embeds the body of the `try` block of `KernelRunner.run`: warmup
launch plus synchronize (untimed), the 100 timed iterations, the
device-to-host copy of the output, and the reference computation.  With a
zero problem size `np.max` raises on an empty array; otherwise the timing,
correctness, samples and test size of the success path are produced. -/
def tryBody (env : Env) : Except String (Timing × Correctness × List Sample × Nat) × List Ev :=
  if env.warmupOk then
    match timedIters env 0 100 with
    | (Except.ok ts, evs) =>
        if env.dtohOk then
          if env.n = 0 then
            (Except.error "zero-size array to reduction operation maximum which has no identity",
             Ev.launchWarmup :: Ev.sync :: evs ++ [Ev.dtoh])
          else
            (Except.ok (timingOf ts,
               { max_error := maxAbsError env, passed := decide (maxAbsError env < tolerance) },
               samplesOf env, env.n),
             Ev.launchWarmup :: Ev.sync :: evs ++ [Ev.dtoh])
        else (Except.error "memcpy_dtoh failed", Ev.launchWarmup :: Ev.sync :: evs)
    | (Except.error e, evs) => (Except.error e, Ev.launchWarmup :: Ev.sync :: evs)
  else (Except.error "kernel launch failed", [])

/-- The result dictionary as updated on the success path of the `try`
block of `KernelRunner.run`. -/
def okPayload (k : String) (tm : Timing) (corr : Correctness)
    (smp : List Sample) (sz : Nat) : RunPayload :=
  { kernel := k, kernel_name := "vector_add", success := true, error := none,
    timing := some tm, correctness := some corr, samples := some smp,
    test_size := some sz }

/-- The result dictionary as updated by the `except` clause of
`KernelRunner.run`: `success := false`, the exception text in `error`,
and the remaining keys as initialised (empty or absent). -/
def errPayload (k : String) (e : String) : RunPayload :=
  { kernel := k, kernel_name := "vector_add", success := false, error := some e,
    timing := none, correctness := none, samples := none, test_size := none }

/-- The part of `KernelRunner.run` from the `try` block on: whatever the
`try` body does, the function returns normally (`Except.ok`) — a successful
payload or one with `success := false` and the exception text in `error` —
and the `finally` block frees the three device buffers.  The recursive
`compare_with` call, which feeds `_compare_results` and is outside every
trace claim, is not modelled here; `_compare_results` is embedded
separately as `compare_results`. -/
def afterCopies (k : String) (env : Env) : Except String RunPayload × List Ev :=
  match tryBody env with
  | (Except.ok (tm, corr, smp, sz), evs) =>
      (Except.ok (okPayload k tm corr smp sz), evs ++ [Ev.freeA, Ev.freeB, Ev.freeC])
  | (Except.error e, evs) =>
      (Except.ok (errPayload k e), evs ++ [Ev.freeA, Ev.freeB, Ev.freeC])

/-- Embeds `KernelRunner.run` for kernel file `k`.  Loading the CUBIN
(`_load_cubin`, which catches, prints and re-raises), the three buffer
allocations and the two host-to-device input copies all happen before the
`try` block: an exception in any of them propagates out of `run` and, for
the copies, the already-allocated buffers are not freed.  Only from the
`try` block on are failures captured into the payload and the buffers
freed by the `finally`. -/
def run (k : String) (env : Env) : Except String RunPayload × List Ev :=
  if env.loadOk then
    if env.htodAOk then
      if env.htodBOk then
        ((afterCopies k env).1,
         [Ev.allocA, Ev.allocB, Ev.allocC, Ev.htodA, Ev.htodB] ++ (afterCopies k env).2)
      else (Except.error "memcpy_htod failed", [Ev.allocA, Ev.allocB, Ev.allocC, Ev.htodA])
    else (Except.error "memcpy_htod failed", [Ev.allocA, Ev.allocB, Ev.allocC])
  else (Except.error "cubin load failed", [])

/-- The payload `run` produces when every device operation succeeds and
the problem size is positive. -/
def successPayload (k : String) (env : Env) : RunPayload :=
  okPayload k (timingOf ((List.range 100).map env.iterTime))
    { max_error := maxAbsError env, passed := decide (maxAbsError env < tolerance) }
    (samplesOf env) env.n

/-- The event trace `run` emits when every device operation succeeds:
allocations, the two input copies, warmup launch and synchronize, the 100
timed launch/synchronize pairs, the single output copy, and the frees. -/
def successTrace : List Ev :=
  [Ev.allocA, Ev.allocB, Ev.allocC, Ev.htodA, Ev.htodB, Ev.launchWarmup, Ev.sync] ++
    ((List.range 100).flatMap fun i => [Ev.launchTimed i, Ev.sync]) ++
    [Ev.dtoh, Ev.freeA, Ev.freeB, Ev.freeC]

/-- True exactly for timed kernel launches. -/
def Ev.isTimedLaunch : Ev → Bool
  | Ev.launchTimed _ => true
  | _ => false

/-- True when the run invocation returned normally (a `RunResult` payload)
rather than propagating an exception. -/
def isNormalReturn (r : Except String RunPayload) : Bool :=
  match r with
  | Except.ok _ => true
  | Except.error _ => false

/-- A concrete environment in which every device operation succeeds:
problem size 3, inputs `a i = i` and `b i = 1`, a device output equal to
the reference (the kernel computed the sum), and per-iteration time one
millisecond. -/
def envAllOk : Env :=
  { n := 3, a := fun i => (i : ℚ), b := fun _ => 1,
    devOut := fun i => (i : ℚ) + 1, loadOk := true, htodAOk := true,
    htodBOk := true, warmupOk := true, iterOk := fun _ => true,
    dtohOk := true, iterTime := fun _ => 1 / 1000 }

/-- `envAllOk` with the first host-to-device input copy raising. -/
def envHtodFail : Env := { envAllOk with htodAOk := false }

/-- `envAllOk` with `cuda.module_from_buffer` raising in `_load_cubin`. -/
def envLoadFail : Env := { envAllOk with loadOk := false }

/-- `envAllOk` with the warmup kernel launch raising inside the `try`. -/
def envWarmupFail : Env := { envAllOk with warmupOk := false }

/-- A concrete successful baseline run result with mean time 2.0 ms. -/
def pOld : RunPayload :=
  okPayload "orig.cubin" { mean_ms := 2, min_ms := 2, max_ms := 2 }
    { max_error := 0, passed := true } [] 4

/-- A concrete successful candidate run result with mean time 1.0 ms. -/
def pNew : RunPayload :=
  okPayload "mod.cubin" { mean_ms := 1, min_ms := 1, max_ms := 1 }
    { max_error := 0, passed := true } [] 4

lemma timedIters_ok (env : Env) :
    ∀ (count start : Nat), (∀ i, start ≤ i → i < start + count → env.iterOk i = true) →
    timedIters env start count =
      (Except.ok ((List.range' start count).map env.iterTime),
       (List.range' start count).flatMap fun i => [Ev.launchTimed i, Ev.sync]) := by
  intro count
  induction count with
  | zero => intro start _; simp [timedIters, List.range']
  | succ c ih =>
      intro start h
      have hstart : env.iterOk start = true := h start le_rfl (by omega)
      have hrest : ∀ i, start + 1 ≤ i → i < start + 1 + c → env.iterOk i = true := by
        intro i h1 h2
        exact h i (by omega) (by omega)
      simp [timedIters, hstart, ih (start + 1) hrest, List.range']

lemma timedIters_events (env : Env) :
    ∀ (count start : Nat) (e : Ev), e ∈ (timedIters env start count).2 →
      e = Ev.sync ∨ ∃ i, e = Ev.launchTimed i := by
  intro count
  induction count with
  | zero => intro start e he; simp [timedIters] at he
  | succ c ih =>
      intro start e he
      by_cases hs : env.iterOk start = true
      · rcases hm : timedIters env (start + 1) c with ⟨r, evs⟩
        cases r with
        | ok ts =>
            simp [timedIters, hs, hm] at he
            rcases he with he | he | he
            · exact Or.inr ⟨start, he⟩
            · exact Or.inl he
            · have := ih (start + 1) e (by rw [hm]; exact he)
              exact this
        | error msg =>
            simp [timedIters, hs, hm] at he
            rcases he with he | he | he
            · exact Or.inr ⟨start, he⟩
            · exact Or.inl he
            · have := ih (start + 1) e (by rw [hm]; exact he)
              exact this
      · simp [timedIters, hs] at he

lemma tryBody_events (env : Env) (e : Ev) (he : e ∈ (tryBody env).2) :
    e = Ev.launchWarmup ∨ e = Ev.sync ∨ e = Ev.dtoh ∨ ∃ i, e = Ev.launchTimed i := by
  by_cases hw : env.warmupOk = true
  · rcases hm : timedIters env 0 100 with ⟨r, evs⟩
    have hevs : ∀ e2, e2 ∈ evs → e2 = Ev.sync ∨ ∃ i, e2 = Ev.launchTimed i := by
      intro e2 he2
      exact timedIters_events env 100 0 e2 (by rw [hm]; exact he2)
    cases r with
    | ok ts =>
        by_cases hd : env.dtohOk = true
        · by_cases hn : env.n = 0
          · simp [tryBody, hw, hm, hd, hn] at he
            rcases he with he | he | he | he
            · exact Or.inl he
            · exact Or.inr (Or.inl he)
            · rcases hevs e he with h2 | h2
              · exact Or.inr (Or.inl h2)
              · exact Or.inr (Or.inr (Or.inr h2))
            · exact Or.inr (Or.inr (Or.inl he))
          · simp [tryBody, hw, hm, hd, hn] at he
            rcases he with he | he | he | he
            · exact Or.inl he
            · exact Or.inr (Or.inl he)
            · rcases hevs e he with h2 | h2
              · exact Or.inr (Or.inl h2)
              · exact Or.inr (Or.inr (Or.inr h2))
            · exact Or.inr (Or.inr (Or.inl he))
        · simp [tryBody, hw, hm, hd] at he
          rcases he with he | he | he
          · exact Or.inl he
          · exact Or.inr (Or.inl he)
          · rcases hevs e he with h2 | h2
            · exact Or.inr (Or.inl h2)
            · exact Or.inr (Or.inr (Or.inr h2))
    | error msg =>
        simp [tryBody, hw, hm] at he
        rcases he with he | he | he
        · exact Or.inl he
        · exact Or.inr (Or.inl he)
        · rcases hevs e he with h2 | h2
          · exact Or.inr (Or.inl h2)
          · exact Or.inr (Or.inr (Or.inr h2))
  · simp [tryBody, hw] at he

lemma afterCopies_snd (k : String) (env : Env) :
    (afterCopies k env).2 = (tryBody env).2 ++ [Ev.freeA, Ev.freeB, Ev.freeC] := by
  rcases hm : tryBody env with ⟨r, evs⟩
  cases r with
  | ok x => rcases x with ⟨tm, corr, smp, sz⟩; simp [afterCopies, hm]
  | error e => simp [afterCopies, hm]

lemma afterCopies_fst_ok (k : String) (env : Env) :
    ∃ p, (afterCopies k env).1 = Except.ok p := by
  rcases hm : tryBody env with ⟨r, evs⟩
  cases r with
  | ok x =>
      rcases x with ⟨tm, corr, smp, sz⟩
      exact ⟨okPayload k tm corr smp sz, by simp [afterCopies, hm]⟩
  | error e => exact ⟨errPayload k e, by simp [afterCopies, hm]⟩

lemma tryBody_ok (env : Env) (hw : env.warmupOk = true)
    (hi : ∀ i, i < 100 → env.iterOk i = true) (hd : env.dtohOk = true)
    (hn : env.n ≠ 0) :
    tryBody env =
      (Except.ok (timingOf ((List.range 100).map env.iterTime),
         { max_error := maxAbsError env, passed := decide (maxAbsError env < tolerance) },
         samplesOf env, env.n),
       Ev.launchWarmup :: Ev.sync ::
         (((List.range 100).flatMap fun i => [Ev.launchTimed i, Ev.sync]) ++ [Ev.dtoh])) := by
  have hit := timedIters_ok env 100 0 (fun i _ h2 => hi i (by omega))
  rw [List.range_eq_range']
  simp [tryBody, hw, hd, hn, hit]

lemma run_success (k : String) (env : Env) (hl : env.loadOk = true)
    (ha : env.htodAOk = true) (hb : env.htodBOk = true) (hw : env.warmupOk = true)
    (hi : ∀ i, i < 100 → env.iterOk i = true) (hd : env.dtohOk = true)
    (hn : env.n ≠ 0) :
    run k env = (Except.ok (successPayload k env), successTrace) := by
  have ht := tryBody_ok env hw hi hd hn
  simp [run, hl, ha, hb, afterCopies, ht, successPayload, successTrace]

lemma run_ok_inv (k : String) (env : Env) (p : RunPayload)
    (h : (run k env).1 = Except.ok p) :
    env.loadOk = true ∧ env.htodAOk = true ∧ env.htodBOk = true ∧
      (afterCopies k env).1 = Except.ok p := by
  by_cases hl : env.loadOk = true
  · by_cases ha : env.htodAOk = true
    · by_cases hb : env.htodBOk = true
      · refine ⟨hl, ha, hb, ?_⟩
        simpa [run, hl, ha, hb] using h
      · simp [run, hl, ha, hb] at h
    · simp [run, hl, ha] at h
  · simp [run, hl] at h

lemma afterCopies_ok_inv (k : String) (env : Env) (p : RunPayload)
    (h : (afterCopies k env).1 = Except.ok p) (hs : p.success = true) :
    ∃ tm corr smp sz evs,
      tryBody env = (Except.ok (tm, corr, smp, sz), evs) ∧
      p = okPayload k tm corr smp sz := by
  rcases hm : tryBody env with ⟨r, evs⟩
  cases r with
  | ok x =>
      rcases x with ⟨tm, corr, smp, sz⟩
      have hp : p = okPayload k tm corr smp sz := by
        have := h
        simp [afterCopies, hm] at this
        exact this.symm
      exact ⟨tm, corr, smp, sz, evs, rfl, hp⟩
  | error e =>
      have hp : p = errPayload k e := by
        have := h
        simp [afterCopies, hm] at this
        exact this.symm
      rw [hp] at hs
      simp [errPayload] at hs

lemma tryBody_ok_inv (env : Env) (tm : Timing) (corr : Correctness)
    (smp : List Sample) (sz : Nat) (evs : List Ev)
    (h : tryBody env = (Except.ok (tm, corr, smp, sz), evs)) :
    corr = { max_error := maxAbsError env, passed := decide (maxAbsError env < tolerance) } ∧
      smp = samplesOf env ∧ sz = env.n ∧ env.n ≠ 0 := by
  by_cases hw : env.warmupOk = true
  · rcases hm : timedIters env 0 100 with ⟨r, evs2⟩
    cases r with
    | ok ts =>
        by_cases hd : env.dtohOk = true
        · by_cases hn : env.n = 0
          · simp [tryBody, hw, hm, hd, hn] at h
          · simp [tryBody, hw, hm, hd, hn] at h
            exact ⟨h.1.2.1.symm, h.1.2.2.1.symm, h.1.2.2.2.symm, hn⟩
        · simp [tryBody, hw, hm, hd] at h
    | error e => simp [tryBody, hw, hm] at h
  · simp [tryBody, hw] at h

lemma foldl_max_lt_iff (bnd : ℚ) :
    ∀ (l : List ℚ) (acc : ℚ), l.foldl max acc < bnd ↔ acc < bnd ∧ ∀ x ∈ l, x < bnd := by
  intro l
  induction l with
  | nil => intro acc; simp
  | cons y ys ih =>
      intro acc
      simp only [List.foldl_cons, ih (max acc y), max_lt_iff, List.mem_cons]
      constructor
      · rintro ⟨⟨h1, h2⟩, h3⟩
        exact ⟨h1, fun x hx => hx.elim (fun he => he ▸ h2) (h3 x)⟩
      · rintro ⟨h1, h2⟩
        exact ⟨⟨h1, h2 y (Or.inl rfl)⟩, fun x hx => h2 x (Or.inr hx)⟩

lemma maxAbsError_lt_tolerance_iff (env : Env) :
    maxAbsError env < tolerance ↔
      ∀ i, i < env.n → |env.devOut i - (env.a i + env.b i)| < tolerance := by
  unfold maxAbsError deviations
  rw [foldl_max_lt_iff]
  constructor
  · rintro ⟨-, h⟩ i hi
    exact h _ (List.mem_map_of_mem _ (List.mem_range.mpr hi))
  · intro h
    refine ⟨by norm_num [tolerance], ?_⟩
    intro x hx
    rcases List.mem_map.mp hx with ⟨i, hi, rfl⟩
    exact h i (List.mem_range.mp hi)

lemma pop_loop_fst (popOk : Nat → Bool) :
    ∀ l : List Nat, (pop_loop popOk l).map Prod.fst = l := by
  intro l
  induction l with
  | nil => rfl
  | cons c rest ih => simp [pop_loop, ih]

/-- C1: for every pair of run results with `success = true`, the
comparison payload's `speedup` is the baseline mean time divided by the
candidate mean time, `speedup_percent` is `(speedup - 1) * 100`, and
`both_correct` is the conjunction of the two `passed` flags; in
particular, baseline mean `2.0` ms and candidate mean `1.0` ms give
speedup `2.0` and `speedup_percent` `100.0`. -/
theorem compare_success_speedup (newR oldR : RunPayload) (tNew tOld : Timing)
    (cNew cOld : Correctness)
    (hNs : newR.success = true) (hOs : oldR.success = true)
    (hNt : newR.timing = some tNew) (hOt : oldR.timing = some tOld)
    (hNc : newR.correctness = some cNew) (hOc : oldR.correctness = some cOld) :
    compare_results newR oldR =
      Except.ok (ComparisonPayload.stats (tOld.mean_ms / tNew.mean_ms)
        ((tOld.mean_ms / tNew.mean_ms - 1) * 100) tOld.mean_ms tNew.mean_ms
        (cNew.passed && cOld.passed)) ∧
    (tOld.mean_ms = 2 → tNew.mean_ms = 1 →
      compare_results newR oldR =
        Except.ok (ComparisonPayload.stats 2 100 2 1 (cNew.passed && cOld.passed))) := by
  have hmain : compare_results newR oldR =
      Except.ok (ComparisonPayload.stats (tOld.mean_ms / tNew.mean_ms)
        ((tOld.mean_ms / tNew.mean_ms - 1) * 100) tOld.mean_ms tNew.mean_ms
        (cNew.passed && cOld.passed)) := by
    simp [compare_results, hNs, hOs, hNt, hOt, hNc, hOc]
  refine ⟨hmain, fun h2 h1 => ?_⟩
  rw [hmain, h2, h1]
  norm_num

/-- C1 witness: concrete payloads with baseline mean 2.0 ms and candidate
mean 1.0 ms compare to speedup 2.0 and speedup_percent 100.0. -/
theorem compare_success_speedup_witness :
    compare_results pNew pOld =
      Except.ok (ComparisonPayload.stats 2 100 2 1 (true && true)) :=
  (compare_success_speedup pNew pOld
      { mean_ms := 1, min_ms := 1, max_ms := 1 }
      { mean_ms := 2, min_ms := 2, max_ms := 2 }
      { max_error := 0, passed := true } { max_error := 0, passed := true }
      rfl rfl rfl rfl rfl rfl).2 rfl rfl

/-- C2 counterexample: with a failed candidate, `_compare_results` returns
the payload whose error message is capitalised, `One or both kernels
failed`, not the lowercase `one or both kernels failed` the claim quotes. -/
theorem compare_failure_message_cx :
    compare_results (errPayload "bad.cubin" "boom") pOld =
      Except.ok (ComparisonPayload.errorPayload "One or both kernels failed") ∧
    compare_results (errPayload "bad.cubin" "boom") pOld ≠
      Except.ok (ComparisonPayload.errorPayload "one or both kernels failed") := by
  refine ⟨rfl, fun hcontra => ?_⟩
  have hmsg : "One or both kernels failed" = "one or both kernels failed" :=
    ComparisonPayload.errorPayload.inj (Except.ok.inj ((rfl :
      compare_results (errPayload "bad.cubin" "boom") pOld =
        Except.ok (ComparisonPayload.errorPayload "One or both kernels failed")).symm.trans
      hcontra))
  exact absurd hmsg (by decide)

/-- C2 as amended: whenever at least one of the two run results has
`success = false`, `_compare_results` returns normally (never raises) with
the payload whose single key is the error message `One or both kernels
failed` (capital O), and that payload carries no numeric speedup. -/
theorem compare_failure_payload (newR oldR : RunPayload)
    (h : newR.success = false ∨ oldR.success = false) :
    compare_results newR oldR =
      Except.ok (ComparisonPayload.errorPayload "One or both kernels failed") ∧
    (∀ pl, compare_results newR oldR = Except.ok pl → pl.speedupValue = none) := by
  have hmain : compare_results newR oldR =
      Except.ok (ComparisonPayload.errorPayload "One or both kernels failed") := by
    rcases h with h | h <;> simp [compare_results, h]
  refine ⟨hmain, fun pl hpl => ?_⟩
  rw [hmain] at hpl
  cases Except.ok.inj hpl
  rfl

/-- C2 witness: a concrete failed candidate against a successful baseline
yields the error payload and no speedup value. -/
theorem compare_failure_payload_witness :
    compare_results (errPayload "bad.cubin" "launch failed") pNew =
      Except.ok (ComparisonPayload.errorPayload "One or both kernels failed") ∧
    (∀ pl, compare_results (errPayload "bad.cubin" "launch failed") pNew = Except.ok pl →
      pl.speedupValue = none) :=
  compare_failure_payload (errPayload "bad.cubin" "launch failed") pNew (Or.inl rfl)

/-- C3 counterexample: when the first host-to-device input copy raises,
the three buffers have been allocated but the exception propagates before
the `try`/`finally` is entered, so no free event is emitted — the buffers
leak, refuting release on every exit path after allocation. -/
theorem run_htod_failure_leaks_cx :
    run "kernel.cubin" envHtodFail =
      (Except.error "memcpy_htod failed", [Ev.allocA, Ev.allocB, Ev.allocC]) ∧
    Ev.allocA ∈ (run "kernel.cubin" envHtodFail).2 ∧
    Ev.freeA ∉ (run "kernel.cubin" envHtodFail).2 ∧
    Ev.freeB ∉ (run "kernel.cubin" envHtodFail).2 ∧
    Ev.freeC ∉ (run "kernel.cubin" envHtodFail).2 := by
  refine ⟨rfl, ?_, ?_, ?_, ?_⟩ <;> decide

/-- C3 as amended: on every exit path that reaches the `try` block — that
is, whenever the CUBIN load and both host-to-device input copies succeed —
each of the three device buffers is freed exactly once before `run`
returns, whether the body succeeds, fails correctness, or raises; an
exception during the input copies themselves propagates without the frees
(the counterexample). -/
theorem run_frees_buffers_after_copies (k : String) (env : Env)
    (hl : env.loadOk = true) (ha : env.htodAOk = true) (hb : env.htodBOk = true) :
    (run k env).2.count Ev.freeA = 1 ∧ (run k env).2.count Ev.freeB = 1 ∧
      (run k env).2.count Ev.freeC = 1 := by
  have htrace : (run k env).2 =
      [Ev.allocA, Ev.allocB, Ev.allocC, Ev.htodA, Ev.htodB] ++
        ((tryBody env).2 ++ [Ev.freeA, Ev.freeB, Ev.freeC]) := by
    simp [run, hl, ha, hb, afterCopies_snd]
  have hA : Ev.freeA ∉ (tryBody env).2 := by
    intro hx
    rcases tryBody_events env _ hx with h | h | h | ⟨i, h⟩ <;> simp at h
  have hB : Ev.freeB ∉ (tryBody env).2 := by
    intro hx
    rcases tryBody_events env _ hx with h | h | h | ⟨i, h⟩ <;> simp at h
  have hC : Ev.freeC ∉ (tryBody env).2 := by
    intro hx
    rcases tryBody_events env _ hx with h | h | h | ⟨i, h⟩ <;> simp at h
  rw [htrace]
  simp [List.count_append, List.count_eq_zero.mpr hA, List.count_eq_zero.mpr hB,
    List.count_eq_zero.mpr hC]

/-- C3 witness: in the all-operations-succeed environment each buffer is
freed exactly once. -/
theorem run_frees_buffers_after_copies_witness :
    (run "kernel.cubin" envAllOk).2.count Ev.freeA = 1 ∧
    (run "kernel.cubin" envAllOk).2.count Ev.freeB = 1 ∧
    (run "kernel.cubin" envAllOk).2.count Ev.freeC = 1 :=
  run_frees_buffers_after_copies "kernel.cubin" envAllOk rfl rfl rfl

/-- C4 counterexample: a failure while loading the binary artifact
propagates out of `run` as an exception — `run` does not return a
`RunResult` with `success = false`, refuting the claim for the load phase
it explicitly includes. -/
theorem run_load_failure_propagates_cx :
    run "kernel.cubin" envLoadFail = (Except.error "cubin load failed", []) ∧
    isNormalReturn (run "kernel.cubin" envLoadFail).1 = false := by
  exact ⟨rfl, rfl⟩

/-- C4 as amended: every failure raised inside the `try` block of `run`
(warmup launch, timed launches, synchronization, output copy, reference
reduction) makes `run` return normally with a `RunResult` whose `success`
is false and whose `error` holds the failure message; failures while
loading the binary, which happen before the `try` block, propagate instead
(the counterexample). -/
theorem run_captures_execution_failure (k : String) (env : Env) (e : String)
    (hl : env.loadOk = true) (ha : env.htodAOk = true) (hb : env.htodBOk = true)
    (hf : (tryBody env).1 = Except.error e) :
    (run k env).1 = Except.ok (errPayload k e) ∧
    isNormalReturn (run k env).1 = true ∧
    (errPayload k e).success = false ∧ (errPayload k e).error = some e := by
  rcases hm : tryBody env with ⟨r, evs⟩
  rw [hm] at hf
  cases r with
  | ok x => simp at hf
  | error e2 =>
      have he2 : e2 = e := by simpa using hf
      have hrun : (run k env).1 = Except.ok (errPayload k e) := by
        simp [run, hl, ha, hb, afterCopies, hm, he2]
      refine ⟨hrun, ?_, rfl, rfl⟩
      rw [hrun]
      rfl

/-- C4 witness: a warmup launch failure is captured as data in the
returned payload. -/
theorem run_captures_execution_failure_witness :
    (run "kernel.cubin" envWarmupFail).1 =
      Except.ok (errPayload "kernel.cubin" "kernel launch failed") ∧
    isNormalReturn (run "kernel.cubin" envWarmupFail).1 = true ∧
    (errPayload "kernel.cubin" "kernel launch failed").success = false ∧
    (errPayload "kernel.cubin" "kernel launch failed").error =
      some "kernel launch failed" :=
  run_captures_execution_failure "kernel.cubin" envWarmupFail
    "kernel launch failed" rfl rfl rfl rfl

/-- C5: every successful run stores the sample list built from the
reference `expected i = a i + b i`: it has exactly `min 5 n` rows, row `i`
carries `expected = a i + b i` and `error = |out - expected|`, the stored
`max_error` is the folded maximum absolute deviation, and `passed` is true
exactly when every absolute deviation between device output and reference
is strictly below the `1e-6` tolerance (equivalently, when the maximum
deviation is). -/
theorem run_success_reference_and_samples (k : String) (env : Env) (p : RunPayload)
    (h : (run k env).1 = Except.ok p) (hs : p.success = true) :
    p.samples = some (samplesOf env) ∧
    (samplesOf env).length = min 5 env.n ∧
    (∀ i, i < min 5 env.n →
      (samplesOf env)[i]? =
        some (Sample.mk i (env.a i) (env.b i) (env.devOut i) (env.a i + env.b i)
          (|env.devOut i - (env.a i + env.b i)|))) ∧
    (∃ c, p.correctness = some c ∧ c.max_error = maxAbsError env ∧
      (c.passed = true ↔
        ∀ i, i < env.n → |env.devOut i - (env.a i + env.b i)| < tolerance)) := by
  obtain ⟨hl, ha, hb, hac⟩ := run_ok_inv k env p h
  obtain ⟨tm, corr, smp, sz, evs, htb, hp⟩ := afterCopies_ok_inv k env p hac hs
  obtain ⟨hcorr, hsmp, hsz, hn⟩ := tryBody_ok_inv env tm corr smp sz evs htb
  refine ⟨?_, ?_, ?_, ?_⟩
  · rw [hp, hsmp]
    rfl
  · simp [samplesOf]
  · intro i hi
    simp [samplesOf, List.getElem?_map, List.getElem?_range hi, expectedAt,
      Sample.mk]
  · refine ⟨corr, ?_, ?_, ?_⟩
    · rw [hp]
      rfl
    · rw [hcorr]
    · rw [hcorr]
      simpa [decide_eq_true_iff] using maxAbsError_lt_tolerance_iff env

/-- C5 witness: the all-operations-succeed environment with `n = 3`,
`a i = i`, `b i = 1` and a device output equal to the reference. -/
theorem run_success_reference_and_samples_witness :
    (successPayload "kernel.cubin" envAllOk).samples = some (samplesOf envAllOk) ∧
    (samplesOf envAllOk).length = min 5 envAllOk.n ∧
    (∀ i, i < min 5 envAllOk.n →
      (samplesOf envAllOk)[i]? =
        some (Sample.mk i (envAllOk.a i) (envAllOk.b i) (envAllOk.devOut i)
          (envAllOk.a i + envAllOk.b i)
          (|envAllOk.devOut i - (envAllOk.a i + envAllOk.b i)|))) ∧
    (∃ c, (successPayload "kernel.cubin" envAllOk).correctness = some c ∧
      c.max_error = maxAbsError envAllOk ∧
      (c.passed = true ↔
        ∀ i, i < envAllOk.n →
          |envAllOk.devOut i - (envAllOk.a i + envAllOk.b i)| < tolerance)) :=
  run_success_reference_and_samples "kernel.cubin" envAllOk
    (successPayload "kernel.cubin" envAllOk)
    (by rw [run_success "kernel.cubin" envAllOk rfl rfl rfl rfl
          (fun i _ => rfl) rfl (by decide)])
    rfl

set_option maxRecDepth 8000 in
/-- C6: when every device operation succeeds (the conditions under which a
run completes), the emitted trace is exactly `successTrace` — allocations,
then both input copies, then the warmup launch with its synchronization,
then the 100 timed launch/synchronize pairs, then the single
device-to-host output copy, then the frees — so the input transfers
strictly precede every kernel execution, which strictly precede the output
transfer.  The trace holds one warmup launch, exactly 100 timed launches
each followed by its synchronization, and exactly one output copy; the
recorded measurements are exactly the 100 timed iteration durations (the
warmup contributes none), and the stored timing statistics are computed
from those 100 durations alone. -/
theorem run_protocol_trace (k : String) (env : Env)
    (hl : env.loadOk = true) (ha : env.htodAOk = true) (hb : env.htodBOk = true)
    (hw : env.warmupOk = true) (hi : ∀ i, i < 100 → env.iterOk i = true)
    (hd : env.dtohOk = true) (hn : env.n ≠ 0) :
    (run k env).2 = successTrace ∧
    successTrace.count Ev.launchWarmup = 1 ∧
    successTrace.countP (fun e => Ev.isTimedLaunch e) = 100 ∧
    successTrace.count Ev.dtoh = 1 ∧
    (timedIters env 0 100).1 = Except.ok ((List.range 100).map env.iterTime) ∧
    (run k env).1 = Except.ok (successPayload k env) ∧
    (successPayload k env).timing =
      some (timingOf ((List.range 100).map env.iterTime)) := by
  have hrs := run_success k env hl ha hb hw hi hd hn
  have hit := timedIters_ok env 100 0 (fun i _ h2 => hi i (by omega))
  refine ⟨by rw [hrs], by decide, by decide, by decide, ?_, by rw [hrs], rfl⟩
  rw [hit, List.range_eq_range']

/-- C6 witness: the concrete all-operations-succeed environment. -/
theorem run_protocol_trace_witness :
    (run "kernel.cubin" envAllOk).2 = successTrace ∧
    successTrace.count Ev.launchWarmup = 1 ∧
    successTrace.countP (fun e => Ev.isTimedLaunch e) = 100 ∧
    successTrace.count Ev.dtoh = 1 ∧
    (timedIters envAllOk 0 100).1 =
      Except.ok ((List.range 100).map envAllOk.iterTime) ∧
    (run "kernel.cubin" envAllOk).1 =
      Except.ok (successPayload "kernel.cubin" envAllOk) ∧
    (successPayload "kernel.cubin" envAllOk).timing =
      some (timingOf ((List.range 100).map envAllOk.iterTime)) :=
  run_protocol_trace "kernel.cubin" envAllOk rfl rfl rfl rfl
    (fun i _ => rfl) rfl (by decide)

/-- C7 counterexample: two invocations with different commands but the
same failing subprocess outcome produce identical errors, and the error
message holds only the exit code and stderr — the error does not carry the
command, refuting that part of the claim. -/
theorem run_command_error_omits_command_cx :
    run_command ["nvcc", "--version"] (SubprocessOutcome.completed 2 "" "boom") =
      run_command ["cuasm"] (SubprocessOutcome.completed 2 "" "boom") ∧
    run_command ["nvcc", "--version"] (SubprocessOutcome.completed 2 "" "boom") =
      Except.error (PyError.runtimeError "Command failed with exit code 2:\nboom") := by
  exact ⟨rfl, rfl⟩

/-- C7 as amended: the invoker returns `(stdout, stderr)` on zero exit; a
non-zero exit code is mapped to a ToolFailure (`RuntimeError`) carrying
the exit code and the captured stderr — but not the command, on which the
error does not depend; and a missing underlying binary is mapped to the
propagated `FileNotFoundError` (ToolUnavailable), distinct in kind from a
failing invocation. -/
theorem run_command_contract (cmd cmd2 : List String) (rc : Int)
    (out err m : String) :
    (rc = 0 → run_command cmd (SubprocessOutcome.completed rc out err) =
      Except.ok (out, err)) ∧
    (rc ≠ 0 →
      run_command cmd (SubprocessOutcome.completed rc out err) =
        Except.error (PyError.runtimeError
          ("Command failed with exit code " ++ toString rc ++ ":\n" ++ err)) ∧
      run_command cmd (SubprocessOutcome.completed rc out err) =
        run_command cmd2 (SubprocessOutcome.completed rc out err)) ∧
    run_command cmd (SubprocessOutcome.fileNotFound m) =
      Except.error (PyError.fileNotFoundError m) ∧
    PyError.isFileNotFound (PyError.fileNotFoundError m) = true ∧
    PyError.isFileNotFound (PyError.runtimeError
      ("Command failed with exit code " ++ toString rc ++ ":\n" ++ err)) = false := by
  refine ⟨fun h0 => ?_, fun hne => ⟨?_, ?_⟩, rfl, rfl, rfl⟩
  · simp [run_command, h0]
  · simp [run_command, hne]
  · simp [run_command, hne]

/-- C7 witness: exit code 0 returns the captured output, exit code 2 the
RuntimeError built from code and stderr. -/
theorem run_command_contract_witness :
    run_command ["nvcc"] (SubprocessOutcome.completed 0 "ok" "") =
      Except.ok ("ok", "") ∧
    run_command ["nvcc"] (SubprocessOutcome.completed 2 "" "boom") =
      Except.error (PyError.runtimeError
        ("Command failed with exit code " ++ toString (2 : Int) ++ ":\n" ++ "boom")) :=
  ⟨(run_command_contract ["nvcc"] ["cuasm"] 0 "ok" "" "m").1 rfl,
   ((run_command_contract ["nvcc"] ["cuasm"] 2 "" "boom" "m").2.1 (by decide)).1⟩

/-- C8 counterexample: with the input cubin missing, the decode stage
fails through the external nvdisasm invocation — a `RuntimeError`
(ToolFailure), not the `FileNotFoundError` kind standing for
ArtifactNotFound — though it indeed writes no output file. -/
theorem disassemble_missing_input_cx :
    Disassembler.disassemble "kernel" "build" false
        (SubprocessOutcome.completed 255 "" "nvdisasm fatal : file not found")
        (SubprocessOutcome.completed 0 "" "") =
      (Except.error (PyError.runtimeError
        "Command failed with exit code 255:\nnvdisasm fatal : file not found"), []) ∧
    PyError.isFileNotFound (PyError.runtimeError
      "Command failed with exit code 255:\nnvdisasm fatal : file not found") = false := by
  exact ⟨rfl, rfl⟩

/-- C8 as amended: for a missing input, the decode stage propagates the
external disassembly tool failure (a `RuntimeError`, since `nvdisasm`
exits non-zero on an unreadable input) and produces no partial output
files; the encode stage is the one that raises the `FileNotFoundError`
kind (ArtifactNotFound), also producing no output files. -/
theorem missing_input_artifact_errors (stem outDir err : String) (rc : Int)
    (cuasmOut : SubprocessOutcome) (hrc : rc ≠ 0) :
    Disassembler.disassemble stem outDir false
        (SubprocessOutcome.completed rc "" err) cuasmOut =
      (Except.error (PyError.runtimeError
        ("Command failed with exit code " ++ toString rc ++ ":\n" ++ err)), []) ∧
    Assembler.assemble stem outDir false cuasmOut =
      (Except.error (PyError.fileNotFoundError
        ("Could not find " ++ stem ++ ".cuasm. Please run disassemble first.")), []) ∧
    PyError.isFileNotFound (PyError.fileNotFoundError
      ("Could not find " ++ stem ++ ".cuasm. Please run disassemble first.")) = true := by
  refine ⟨?_, rfl, rfl⟩
  simp [Disassembler.disassemble, run_command, hrc]

/-- C8 witness: concrete missing-input decode and encode failures. -/
theorem missing_input_artifact_errors_witness :
    Disassembler.disassemble "kernel" "build" false
        (SubprocessOutcome.completed 1 "" "cannot open")
        (SubprocessOutcome.completed 0 "" "") =
      (Except.error (PyError.runtimeError
        ("Command failed with exit code " ++ toString (1 : Int) ++ ":\n" ++ "cannot open")), []) ∧
    Assembler.assemble "kernel" "build" false (SubprocessOutcome.completed 0 "" "") =
      (Except.error (PyError.fileNotFoundError
        ("Could not find " ++ "kernel" ++ ".cuasm. Please run disassemble first.")), []) ∧
    PyError.isFileNotFound (PyError.fileNotFoundError
      ("Could not find " ++ "kernel" ++ ".cuasm. Please run disassemble first.")) = true :=
  missing_input_artifact_errors "kernel" "build" "cannot open" 1
    (SubprocessOutcome.completed 0 "" "") (by decide)

/-- C9: acquiring an execution context twice on the same worker is
idempotent — the second acquisition changes nothing, so at most one
context is registered for the worker — and teardown attempts to release
exactly the registered contexts, each exactly once and in order, whatever
the per-context pop outcomes are (release failures are swallowed: the
loop is total and visits every entry), leaving the registry empty. -/
theorem context_idempotent_and_teardown :
    (∀ (w : Nat) (s : CtxState),
      ensure_cuda_context w (ensure_cuda_context w s) = ensure_cuda_context w s ∧
      (ensure_cuda_context w (ensure_cuda_context w s)).contextsToCleanup.length ≤
        s.contextsToCleanup.length + 1) ∧
    (∀ (popOk : Nat → Bool) (s : CtxState),
      (cleanup_all_contexts popOk s).2.map Prod.fst = s.contextsToCleanup ∧
      (cleanup_all_contexts popOk s).1.contextsToCleanup = []) := by
  constructor
  · intro w s
    have hid : ensure_cuda_context w (ensure_cuda_context w s) =
        ensure_cuda_context w s := by
      rcases hm : s.threadCtx w with _ | c
      · simp [ensure_cuda_context, hm]
      · simp [ensure_cuda_context, hm]
    refine ⟨hid, ?_⟩
    rw [hid]
    rcases hm : s.threadCtx w with _ | c
    · simp [ensure_cuda_context, hm]
    · simp [ensure_cuda_context, hm]
  · intro popOk s
    exact ⟨pop_loop_fst popOk s.contextsToCleanup, rfl⟩

/-- C10: compiling a source whose suffix is neither `.cu` nor `.py` raises
`ValueError` with a message naming the unsupported suffix, and compiling
any `.py` (kernel-DSL) source always raises `NotImplementedError`,
whatever the external tool outcomes are — the Triton path never compiles. -/
theorem compile_unsupported_suffix (stem suffix outDir : String)
    (p1 p2 : SubprocessOutcome) (h1 : suffix ≠ ".cu") (h2 : suffix ≠ ".py") :
    Compiler.compile stem suffix outDir p1 p2 =
      Except.error (PyError.valueError ("Unsupported file type: " ++ suffix)) ∧
    ∀ (q1 q2 : SubprocessOutcome),
      Compiler.compile stem ".py" outDir q1 q2 =
        Except.error (PyError.notImplementedError
          "Triton compilation not yet implemented") := by
  constructor
  · simp [Compiler.compile, h1, h2]
  · intro q1 q2
    rfl

/-- C10 witness: suffix `.txt` raises the ValueError naming it and `.py`
raises NotImplementedError. -/
theorem compile_unsupported_suffix_witness :
    Compiler.compile "kernel" ".txt" "build"
        (SubprocessOutcome.completed 0 "" "") (SubprocessOutcome.completed 0 "" "") =
      Except.error (PyError.valueError ("Unsupported file type: " ++ ".txt")) ∧
    ∀ (q1 q2 : SubprocessOutcome),
      Compiler.compile "kernel" ".py" "build" q1 q2 =
        Except.error (PyError.notImplementedError
          "Triton compilation not yet implemented") :=
  compile_unsupported_suffix "kernel" ".txt" "build"
    (SubprocessOutcome.completed 0 "" "") (SubprocessOutcome.completed 0 "" "")
    (by decide) (by decide)
